import Mathlib

/-!
Verification of the zima-file-service repository against its specification.

The repository is a collection of scripts that build Word/Excel files with
hard-coded content.  The specification describes a Content Renderer
(`render : blocks → options → Document`) as the reusable core; the renderer
itself is not a file of the repository, only its callers and literal block
data are (`create_presentation.py` builds the `content_blocks` input,
`call_create_word.py` builds a `tool_call` input, and so on).  The renderer
is therefore modelled from the spec below, while the spreadsheet scripts
(`create_products.py`, `create_product_excel.py`) and the JSON-RPC client
of `create_presentation.py` are embedded directly from the source.
-/

/-- Renderer-level errors, from the spec's error taxonomy (section 7):
`UnsupportedBlockKind`, `InvalidHeadingLevel`, `RowLengthMismatch`. -/
inductive RenderError where
  | unsupportedBlockKind (tag : String)
  | invalidHeadingLevel (level : Nat)
  | rowLengthMismatch (headerLen : Nat)
deriving DecidableEq

/-- Transport-level failures, from the spec's error taxonomy (section 7):
malformed JSON line, process exit, timeout. -/
inductive TransportFailure where
  | malformedJsonLine
  | processExit
  | timeout
deriving DecidableEq

/-- Typed content block of the rendered document tree (spec section 3):
tagged variant over Heading, Paragraph, BulletList, Table, PageBreak. -/
inductive ContentBlock where
  | heading (level : Nat) (text : String)
  | paragraph (text : String) (bold : Bool) (italic : Bool)
  | bulletList (items : List String)
  | table (headers : List String) (rows : List (List String))
  | pageBreak
deriving DecidableEq

/-- Raw input block as the callers build it: a dict with a `type` tag and
per-kind fields, as in the `content_blocks` literals of
`create_presentation.py` (tags "heading", "paragraph", "bullet", "table",
"break"; fields `level`, `text`, `items`, `headers`, `rows`, `bold`,
`italic`).  Fields not used by a given tag are ignored by the renderer. -/
structure RawBlock where
  tag : String
  level : Nat
  text : String
  items : List String
  headers : List String
  rows : List (List String)
  bold : Bool
  italic : Bool
deriving DecidableEq

/-- Raw heading block, as in the `content_blocks` heading entries. -/
def headingRaw (level : Nat) (text : String) : RawBlock :=
  ⟨"heading", level, text, [], [], [], false, false⟩

/-- Raw paragraph block with optional bold/italic flags. -/
def paragraphRaw (text : String) (bold : Bool) (italic : Bool) : RawBlock :=
  ⟨"paragraph", 1, text, [], [], [], bold, italic⟩

/-- Raw bullet-list block. -/
def bulletRaw (items : List String) : RawBlock :=
  ⟨"bullet", 1, "", items, [], [], false, false⟩

/-- Raw table block with headers and rows. -/
def tableRaw (headers : List String) (rows : List (List String)) : RawBlock :=
  ⟨"table", 1, "", [], headers, rows, false, false⟩

/-- Raw page-break block, as the `break` entries of `content_blocks`. -/
def breakRaw : RawBlock :=
  ⟨"break", 1, "", [], [], [], false, false⟩

/-- Render options: document-level metadata (spec section 3: title,
default font, page size). -/
structure RenderOptions where
  title : String
  defaultFont : String
  pageSize : String
deriving DecidableEq

/-- The default options used by callers that pass no explicit styling. -/
def defaultOptions : RenderOptions :=
  ⟨"", "Calibri", "A4"⟩

/-- In-memory document tree: document-level metadata plus the ordered
sequence of content blocks (spec section 3). -/
structure Document where
  title : String
  defaultFont : String
  pageSize : String
  blocks : List ContentBlock
deriving DecidableEq

/-- The set of recognized block tags (spec section 3: heading, paragraph,
bullet list, table, page break, with the tag spellings used by the
repository's `content_blocks` literals). -/
def recognizedTag (t : String) : Bool :=
  t = "heading" || t = "paragraph" || t = "bullet" || t = "table" || t = "break"

/-- Modelled from the spec: per-block step of the Content Renderer, which
is absent from the repository (only its callers are under src/).  Spec
section 4.1: an unrecognized tag fails with `UnsupportedBlockKind` carrying
the offending tag; a Heading `level` outside 1–6 fails with
`InvalidHeadingLevel`; for Table row-length mismatches the declared policy
chosen here is to fail with `RowLengthMismatch`. -/
def renderBlock (b : RawBlock) : Except RenderError ContentBlock :=
  if b.tag = "heading" then
    if 1 ≤ b.level ∧ b.level ≤ 6 then
      Except.ok (ContentBlock.heading b.level b.text)
    else
      Except.error (RenderError.invalidHeadingLevel b.level)
  else if b.tag = "paragraph" then
    Except.ok (ContentBlock.paragraph b.text b.bold b.italic)
  else if b.tag = "bullet" then
    Except.ok (ContentBlock.bulletList b.items)
  else if b.tag = "table" then
    if b.rows.all (fun r => r.length == b.headers.length) then
      Except.ok (ContentBlock.table b.headers b.rows)
    else
      Except.error (RenderError.rowLengthMismatch b.headers.length)
  else if b.tag = "break" then
    Except.ok ContentBlock.pageBreak
  else
    Except.error (RenderError.unsupportedBlockKind b.tag)

/-- Modelled from the spec: sequential, fail-fast processing of the block
list (spec section 7: errors are detected eagerly at the block being
processed and abort the whole render). -/
def renderBlocks : List RawBlock → Except RenderError (List ContentBlock)
  | [] => Except.ok []
  | b :: bs =>
    match renderBlock b with
    | Except.error e => Except.error e
    | Except.ok c =>
      match renderBlocks bs with
      | Except.error e => Except.error e
      | Except.ok cs => Except.ok (c :: cs)

/-- Modelled from the spec: the Content Renderer contract of section 4.1,
`render(blocks, options) -> Document`, absent from the repository. -/
def render (blocks : List RawBlock) (opts : RenderOptions) :
    Except RenderError Document :=
  match renderBlocks blocks with
  | Except.error e => Except.error e
  | Except.ok cs => Except.ok ⟨opts.title, opts.defaultFont, opts.pageSize, cs⟩

/-- Reparse step of the table round-trip (spec section 8): read the first
Table block of a Document back as its headers/rows shape. -/
def firstTable : List ContentBlock → Option (List String × List (List String))
  | [] => none
  | ContentBlock.table hs rs :: _ => some (hs, rs)
  | _ :: rest => firstTable rest

/-- Reparse a rendered Document via the same schema, extracting the table
shape. -/
def reparseTable (d : Document) : Option (List String × List (List String)) :=
  firstTable d.blocks

/-- The file system as seen by the scripts: an ordered list of
(path, serialized contents) writes, as performed by `wb.save(output_path)`
in `create_products.py` and `doc.save(output_path)` in
`create_cities_doc.py`. -/
abbrev World := List (String × String)

/-- Flatten one content block to text, for the serializer model. -/
def blockText : ContentBlock → String
  | ContentBlock.heading _ t => t
  | ContentBlock.paragraph t _ _ => t
  | ContentBlock.bulletList items => String.intercalate "\n" items
  | ContentBlock.table hs rs =>
    String.intercalate "\n" ((hs :: rs).map (String.intercalate "\t"))
  | ContentBlock.pageBreak => "\x0c"

/-- Modelled from the spec: the external serializer collaborator (spec
section 6) flattens a Document to concrete file contents. -/
def serializeDoc (d : Document) : String :=
  d.title ++ "\n" ++ String.intercalate "\n" (d.blocks.map blockText)

/-- Modelled from the spec: `render` run against an explicit file-system
state, making any file I/O observable.  Spec section 4.1: render performs
no side effects and no file I/O, so its state-passing form returns the
world unchanged and its result ignores the world. -/
def renderSt (blocks : List RawBlock) (opts : RenderOptions) (w : World) :
    Except RenderError Document × World :=
  (render blocks opts, w)

/-- Modelled from the spec: the external serializer writes the Document to
a target file path (spec section 6), the only write of the pipeline. -/
def saveDoc (d : Document) (path : String) (w : World) : World :=
  w ++ [(path, serializeDoc d)]

/-- Modelled from the spec: the whole pipeline — render, then hand the
Document to the external serializer (as the scripts do: build in memory,
then one `save` call). -/
def renderAndSave (blocks : List RawBlock) (opts : RenderOptions)
    (path : String) (w : World) : Except RenderError Unit × World :=
  match renderSt blocks opts w with
  | (Except.ok d, w1) => (Except.ok (), saveDoc d path w1)
  | (Except.error e, w1) => (Except.error e, w1)

/-- Modelled from the spec: the minimal synchronous transport client of
sections 6 and 9 — send one encoded request over the channel, surface the
channel's outcome verbatim; the second component counts send attempts
(spec section 7: transport failures are surfaced, never silently
retried). -/
def transportCall (req : String)
    (channel : String → Except TransportFailure String) :
    Except TransportFailure String × Nat :=
  (channel req, 1)

/-! ## Embedding of `create_products.py` (spreadsheet column widths) -/

/-- The `headers` literal of `create_products.py`. -/
def productHeaders : List String := ["Product", "Price"]

/-- The `products` literal of `create_products.py`. -/
def products : List (List String) :=
  [["iPhone", "$999"], ["MacBook", "$1999"], ["iPad", "$799"]]

/-- The worksheet rows of `create_products.py`: headers written at row 1,
products at rows 2 and following. -/
def productSheetRows : List (List String) := productHeaders :: products

/-- The columns iterated by `for column in ws.columns`: for each column
index, the cells of every used row. -/
def productColumns : List (List String) :=
  (List.range productHeaders.length).map
    (fun j => productSheetRows.map (fun r => r.getD j ""))

/-- The `max_length` loop of `create_products.py`: starting from 0,
replace the accumulator whenever `len(str(cell.value)) > max_length`. -/
def maxLenLoop : List String → Nat → Nat
  | [], acc => acc
  | c :: cs, acc => maxLenLoop cs (if acc < c.length then c.length else acc)

/-- The `adjusted_width = min(max_length + 2, 50)` computation of
`create_products.py`, assigned to `ws.column_dimensions[...].width`. -/
def adjustedWidth (col : List String) : Nat :=
  min (maxLenLoop col 0 + 2) 50

/-! ## Embedding of `generated_files/create_product_excel.py` -/

/-- Cell values of `create_product_excel.py`: strings or integers. -/
inductive CellValue where
  | s (v : String)
  | n (v : Nat)
deriving DecidableEq

/-- The `rows` literal of `create_product_excel.py` (ten product rows). -/
def excelDataRows : List (List CellValue) :=
  [[CellValue.s "P001", CellValue.s "Laptop Computer", CellValue.s "Electronics",
    CellValue.s "$1299.99", CellValue.n 45, CellValue.s "TechCorp", CellValue.s "2026-01-15"],
   [CellValue.s "P002", CellValue.s "Office Chair", CellValue.s "Furniture",
    CellValue.s "$249.99", CellValue.n 23, CellValue.s "ComfortSeating", CellValue.s "2026-01-20"],
   [CellValue.s "P003", CellValue.s "Coffee Maker", CellValue.s "Appliances",
    CellValue.s "$89.99", CellValue.n 67, CellValue.s "BrewMaster", CellValue.s "2026-01-18"],
   [CellValue.s "P004", CellValue.s "Wireless Mouse", CellValue.s "Electronics",
    CellValue.s "$29.99", CellValue.n 134, CellValue.s "TechCorp", CellValue.s "2026-01-22"],
   [CellValue.s "P005", CellValue.s "Desk Lamp", CellValue.s "Furniture",
    CellValue.s "$45.99", CellValue.n 78, CellValue.s "LightWorks", CellValue.s "2026-01-16"],
   [CellValue.s "P006", CellValue.s "Water Bottle", CellValue.s "Accessories",
    CellValue.s "$19.99", CellValue.n 89, CellValue.s "HydroLife", CellValue.s "2026-01-25"],
   [CellValue.s "P007", CellValue.s "Keyboard", CellValue.s "Electronics",
    CellValue.s "$79.99", CellValue.n 56, CellValue.s "TechCorp", CellValue.s "2026-01-21"],
   [CellValue.s "P008", CellValue.s "Plant Pot", CellValue.s "Home & Garden",
    CellValue.s "$12.99", CellValue.n 145, CellValue.s "GreenThumb", CellValue.s "2026-01-19"],
   [CellValue.s "P009", CellValue.s "Notebook Set", CellValue.s "Office Supplies",
    CellValue.s "$15.99", CellValue.n 203, CellValue.s "PaperPlus", CellValue.s "2026-01-24"],
   [CellValue.s "P010", CellValue.s "Phone Charger", CellValue.s "Electronics",
    CellValue.s "$24.99", CellValue.n 98, CellValue.s "PowerTech", CellValue.s "2026-01-23"]]

/-- Worksheet row number of the i-th data row (0-based):
`enumerate(rows, 2)` numbers the data rows from 2. -/
def dataRowNum (i : Nat) : Nat := i + 2

/-- The alternating-fill condition of `create_product_excel.py`:
`if row_num % 2 == 0`, the cell gets the grey `PatternFill`. -/
def altFillApplied (rowNum : Nat) : Bool := rowNum % 2 == 0

/-! ## Embedding of the JSON-RPC client of `create_presentation.py` -/

/-- A client message: a request carries an id, a notification does not. -/
inductive MsgKind where
  | request (id : Nat) (method : String)
  | notification (method : String)
deriving DecidableEq

/-- One observable transport action of the script: writing one
newline-terminated JSON line to the child's stdin, or reading one line
from its stdout. -/
inductive ClientEvent where
  | writeLine (m : MsgKind)
  | readLine
deriving DecidableEq

/-- JSON encoding of a message's protocol envelope, as `json.dumps`
produces it for the id/method fields (the `params` payload carries no
newline either and is elided as irrelevant to framing and ordering). -/
def encodeMsg : MsgKind → String
  | MsgKind.request i m =>
    "\x7b\"jsonrpc\": \"2.0\", \"id\": " ++ toString i ++ ", \"method\": \"" ++ m ++ "\"\x7d"
  | MsgKind.notification m =>
    "\x7b\"jsonrpc\": \"2.0\", \"method\": \"" ++ m ++ "\"\x7d"

/-- The wire form of one message: `json.dumps(msg) + '\n'`. -/
def wireLine (m : MsgKind) : String := encodeMsg m ++ "\n"

/-- The transport trace of `create_presentation.py`, in source order:
write `init_request` (id 0), read the initialize response line, write the
`notifications/initialized` notification, write `mcp_request`
(id 1, `tools/call`), read the response line. -/
def clientTrace : List ClientEvent :=
  [ClientEvent.writeLine (MsgKind.request 0 "initialize"),
   ClientEvent.readLine,
   ClientEvent.writeLine (MsgKind.notification "notifications/initialized"),
   ClientEvent.writeLine (MsgKind.request 1 "tools/call"),
   ClientEvent.readLine]

/-- Whether a trace tail starts with a read. -/
def startsWithRead : List ClientEvent → Bool
  | ClientEvent.readLine :: _ => true
  | _ => false

/-- Read discipline over a trace: immediately after each request write
comes exactly one read, a notification write is not followed by a read,
and reads occur nowhere else. -/
def readDiscipline : List ClientEvent → Bool
  | [] => true
  | ClientEvent.writeLine (MsgKind.request _ _) :: ClientEvent.readLine :: rest =>
    !startsWithRead rest && readDiscipline rest
  | ClientEvent.writeLine (MsgKind.notification _) :: rest =>
    !startsWithRead rest && readDiscipline rest
  | _ => false

/-! ## Helper lemmas about the renderer -/

theorem renderBlocks_ok_of_forall (bs : List RawBlock)
    (h : ∀ b ∈ bs, ∃ c, renderBlock b = Except.ok c) :
    ∃ cs, renderBlocks bs = Except.ok cs ∧ cs.length = bs.length ∧
      ∀ i (hi : i < bs.length) (hc : i < cs.length),
        renderBlock (bs.get ⟨i, hi⟩) = Except.ok (cs.get ⟨i, hc⟩) := by
  induction bs with
  | nil =>
    exact ⟨[], rfl, rfl, fun i hi _ => absurd hi (Nat.not_lt_zero i)⟩
  | cons b bs ih =>
    obtain ⟨c, hc⟩ := h b (List.mem_cons_self b bs)
    obtain ⟨cs, h1, h2, h3⟩ := ih (fun b' hb' => h b' (List.mem_cons_of_mem b hb'))
    refine ⟨c :: cs, ?_, ?_, ?_⟩
    · simp [renderBlocks, hc, h1]
    · simp [h2]
    · intro i hi hcl
      match i with
      | 0 => exact hc
      | Nat.succ n =>
        exact h3 n (Nat.lt_of_succ_lt_succ hi) (Nat.lt_of_succ_lt_succ hcl)

theorem renderBlocks_error_at (pre : List RawBlock) (b : RawBlock)
    (post : List RawBlock) (e : RenderError)
    (hpre : ∀ p ∈ pre, ∃ c, renderBlock p = Except.ok c)
    (hb : renderBlock b = Except.error e) :
    renderBlocks (pre ++ b :: post) = Except.error e := by
  induction pre with
  | nil => simp [renderBlocks, hb]
  | cons p pre ih =>
    obtain ⟨c, hc⟩ := hpre p (List.mem_cons_self p pre)
    have hrest := ih (fun q hq => hpre q (List.mem_cons_of_mem p hq))
    simp [renderBlocks, hc, hrest]

theorem renderBlocks_error_of_bad (bs : List RawBlock)
    (h : ∃ b ∈ bs, ∀ c, renderBlock b ≠ Except.ok c) :
    ∃ e, renderBlocks bs = Except.error e := by
  induction bs with
  | nil =>
    obtain ⟨b, hb, _⟩ := h
    exact absurd hb (List.not_mem_nil b)
  | cons b bs ih =>
    cases hrb : renderBlock b with
    | error e => exact ⟨e, by simp [renderBlocks, hrb]⟩
    | ok c =>
      obtain ⟨b', hb', hbad⟩ := h
      rcases List.mem_cons.mp hb' with rfl | hmem
      · exact absurd hrb (hbad c)
      · obtain ⟨e, he⟩ := ih ⟨b', hmem, hbad⟩
        exact ⟨e, by simp [renderBlocks, hrb, he]⟩

theorem renderBlock_unrecognized (b : RawBlock)
    (h : recognizedTag b.tag = false) :
    renderBlock b = Except.error (RenderError.unsupportedBlockKind b.tag) := by
  unfold renderBlock
  split_ifs <;> simp_all [recognizedTag]

theorem renderBlock_recognized_not_unsupported (b : RawBlock)
    (h : recognizedTag b.tag = true) (t : String) :
    renderBlock b ≠ Except.error (RenderError.unsupportedBlockKind t) := by
  unfold renderBlock
  split_ifs <;> simp_all [recognizedTag]

theorem renderBlock_unsupported_inv (b : RawBlock) (t : String)
    (h : renderBlock b = Except.error (RenderError.unsupportedBlockKind t)) :
    recognizedTag b.tag = false := by
  by_cases hr : recognizedTag b.tag = true
  · exact absurd h (renderBlock_recognized_not_unsupported b hr t)
  · revert hr
    cases recognizedTag b.tag <;> simp

theorem renderBlocks_unsupported_inv (bs : List RawBlock) (t : String)
    (h : renderBlocks bs = Except.error (RenderError.unsupportedBlockKind t)) :
    ∃ b ∈ bs, recognizedTag b.tag = false := by
  induction bs with
  | nil => simp [renderBlocks] at h
  | cons b bs ih =>
    cases hrb : renderBlock b with
    | error e =>
      have he : e = RenderError.unsupportedBlockKind t := by
        simp [renderBlocks, hrb] at h
        exact h
      subst he
      exact ⟨b, List.mem_cons_self b bs, renderBlock_unsupported_inv b t hrb⟩
    | ok c =>
      cases hrest : renderBlocks bs with
      | error e' =>
        have he : e' = RenderError.unsupportedBlockKind t := by
          simp [renderBlocks, hrb, hrest] at h
          exact h
        obtain ⟨b', hb', hbf⟩ := ih (he ▸ hrest)
        exact ⟨b', List.mem_cons_of_mem b hb', hbf⟩
      | ok cs => simp [renderBlocks, hrb, hrest] at h

theorem render_error_iff (blocks : List RawBlock) (opts : RenderOptions)
    (e : RenderError) :
    render blocks opts = Except.error e ↔ renderBlocks blocks = Except.error e := by
  unfold render
  cases h : renderBlocks blocks <;> simp

/-! ## Claim theorems -/

/-- Claim C6: calling render on an empty block sequence with default
options (indeed with any options) is not an error: it succeeds and yields
a Document with zero content blocks. -/
theorem render_empty_succeeds (opts : RenderOptions) :
    ∃ d, render [] opts = Except.ok d ∧ d.blocks = [] :=
  ⟨⟨opts.title, opts.defaultFont, opts.pageSize, []⟩, rfl, rfl⟩

/-- Claim C2: rendering a Heading block succeeds when its level is in
1..6 and fails with InvalidHeadingLevel when its level is outside 1..6
(for a Nat level: level 0 or level at least 7). -/
theorem render_heading_level (lvl : Nat) (t : String) (opts : RenderOptions) :
    (1 ≤ lvl → lvl ≤ 6 →
      render [headingRaw lvl t] opts =
        Except.ok ⟨opts.title, opts.defaultFont, opts.pageSize,
          [ContentBlock.heading lvl t]⟩)
    ∧ (lvl = 0 ∨ 7 ≤ lvl →
      render [headingRaw lvl t] opts =
        Except.error (RenderError.invalidHeadingLevel lvl)) := by
  constructor
  · intro h1 h2
    simp [render, renderBlocks, renderBlock, headingRaw, h1, h2]
  · intro h
    have hn : ¬ (1 ≤ lvl ∧ lvl ≤ 6) := by omega
    simp [render, renderBlocks, renderBlock, headingRaw, hn]

/-- Witness for C2 at levels 3 (in range), 0 and 7 (out of range). -/
theorem render_heading_level_witness :
    render [headingRaw 3 "x"] defaultOptions =
      Except.ok ⟨"", "Calibri", "A4", [ContentBlock.heading 3 "x"]⟩
    ∧ render [headingRaw 0 "x"] defaultOptions =
      Except.error (RenderError.invalidHeadingLevel 0)
    ∧ render [headingRaw 7 "x"] defaultOptions =
      Except.error (RenderError.invalidHeadingLevel 7) :=
  ⟨(render_heading_level 3 "x" defaultOptions).1 (by decide) (by decide),
   (render_heading_level 0 "x" defaultOptions).2 (Or.inl rfl),
   (render_heading_level 7 "x" defaultOptions).2 (Or.inr (by decide))⟩

/-- Claim C4: rendering a Table block and reparsing the produced Document
via the same schema yields identical headers and rows, under the invariant
that every row has the same length as the header sequence. -/
theorem render_table_roundtrip (hs : List String) (rs : List (List String))
    (opts : RenderOptions) (h : ∀ r ∈ rs, r.length = hs.length) :
    ∃ d, render [tableRaw hs rs] opts = Except.ok d ∧
      reparseTable d = some (hs, rs) := by
  have hall : rs.all (fun r => r.length == hs.length) = true := by
    rw [List.all_eq_true]
    intro r hr
    simpa using h r hr
  refine ⟨⟨opts.title, opts.defaultFont, opts.pageSize,
    [ContentBlock.table hs rs]⟩, ?_, rfl⟩
  simp [render, renderBlocks, renderBlock, tableRaw, hall]

/-- Witness for C4 at the spec's example table. -/
theorem render_table_roundtrip_witness :
    ∃ d, render [tableRaw ["A", "B"] [["1", "2"], ["3", "4"]]] defaultOptions =
      Except.ok d ∧
      reparseTable d = some (["A", "B"], [["1", "2"], ["3", "4"]]) :=
  render_table_roundtrip ["A", "B"] [["1", "2"], ["3", "4"]] defaultOptions
    (by decide)

/-- Claim C1: for every input sequence of recognized content blocks (blocks
each of which the renderer accepts), render succeeds, the Document's block
count equals the input's, and the i-th output block is the rendering of the
i-th input block: no blocks are dropped, reordered, or merged. -/
theorem render_preserves_order (blocks : List RawBlock) (opts : RenderOptions)
    (h : ∀ b ∈ blocks, ∃ c, renderBlock b = Except.ok c) :
    ∃ d, render blocks opts = Except.ok d ∧
      d.blocks.length = blocks.length ∧
      ∀ i (hi : i < blocks.length) (hd : i < d.blocks.length),
        renderBlock (blocks.get ⟨i, hi⟩) = Except.ok (d.blocks.get ⟨i, hd⟩) := by
  obtain ⟨cs, h1, h2, h3⟩ := renderBlocks_ok_of_forall blocks h
  exact ⟨⟨opts.title, opts.defaultFont, opts.pageSize, cs⟩,
    by simp [render, h1], h2, h3⟩

/-- Witness for C1 at the spec's order-preservation example
`[Heading("X"), Paragraph("Y"), PageBreak]`. -/
theorem render_preserves_order_witness :
    ∃ d, render [headingRaw 1 "X", paragraphRaw "Y" false false, breakRaw]
        defaultOptions = Except.ok d ∧
      d.blocks.length =
        [headingRaw 1 "X", paragraphRaw "Y" false false, breakRaw].length ∧
      ∀ i (hi : i < [headingRaw 1 "X", paragraphRaw "Y" false false,
          breakRaw].length) (hd : i < d.blocks.length),
        renderBlock ([headingRaw 1 "X", paragraphRaw "Y" false false,
          breakRaw].get ⟨i, hi⟩) = Except.ok (d.blocks.get ⟨i, hd⟩) :=
  render_preserves_order
    [headingRaw 1 "X", paragraphRaw "Y" false false, breakRaw]
    defaultOptions
    (by
      intro b hb
      rcases List.mem_cons.mp hb with rfl | hb
      · exact ⟨ContentBlock.heading 1 "X", rfl⟩
      rcases List.mem_cons.mp hb with rfl | hb
      · exact ⟨ContentBlock.paragraph "Y" false false, rfl⟩
      rcases List.mem_cons.mp hb with rfl | hb
      · exact ⟨ContentBlock.pageBreak, rfl⟩
      · exact absurd hb (List.not_mem_nil b))

/-- Claim C3: an input containing a block with an unrecognized tag makes
render fail; when the unrecognized block is the first offending one, the
error is UnsupportedBlockKind carrying the offending tag; and for inputs
with only recognized tags an UnsupportedBlockKind error never occurs. -/
theorem render_unsupported_tag (blocks pre post : List RawBlock)
    (b : RawBlock) (opts : RenderOptions) :
    ((∃ b' ∈ blocks, recognizedTag b'.tag = false) →
      ∃ e, render blocks opts = Except.error e)
    ∧ (blocks = pre ++ b :: post → recognizedTag b.tag = false →
      (∀ p ∈ pre, ∃ c, renderBlock p = Except.ok c) →
      render blocks opts =
        Except.error (RenderError.unsupportedBlockKind b.tag))
    ∧ ((∀ b' ∈ blocks, recognizedTag b'.tag = true) →
      ∀ t, render blocks opts ≠
        Except.error (RenderError.unsupportedBlockKind t)) := by
  refine ⟨?_, ?_, ?_⟩
  · rintro ⟨b', hb', hbf⟩
    obtain ⟨e, he⟩ := renderBlocks_error_of_bad blocks
      ⟨b', hb', fun c hc => by
        rw [renderBlock_unrecognized b' hbf] at hc
        exact Except.noConfusion hc⟩
    exact ⟨e, (render_error_iff blocks opts e).mpr he⟩
  · intro hsplit hbf hpre
    rw [render_error_iff, hsplit]
    exact renderBlocks_error_at pre b post _ hpre (renderBlock_unrecognized b hbf)
  · intro hall t hbad
    rw [render_error_iff] at hbad
    obtain ⟨b', hb', hbf⟩ := renderBlocks_unsupported_inv blocks t hbad
    rw [hall b' hb'] at hbf
    exact Bool.noConfusion hbf

/-- Witness for C3 at the spec's example, a single block tagged
`"unknown"`, plus the recognized-tags side at a single heading block. -/
theorem render_unsupported_tag_witness :
    render [⟨"unknown", 1, "", [], [], [], false, false⟩] defaultOptions =
      Except.error (RenderError.unsupportedBlockKind "unknown")
    ∧ (∃ e, render [⟨"unknown", 1, "", [], [], [], false, false⟩]
        defaultOptions = Except.error e)
    ∧ render [headingRaw 1 "X"] defaultOptions ≠
      Except.error (RenderError.unsupportedBlockKind "unknown") :=
  ⟨(render_unsupported_tag [⟨"unknown", 1, "", [], [], [], false, false⟩]
      [] [] ⟨"unknown", 1, "", [], [], [], false, false⟩ defaultOptions).2.1
    rfl (by decide) (fun p hp => absurd hp (List.not_mem_nil p)),
   (render_unsupported_tag [⟨"unknown", 1, "", [], [], [], false, false⟩]
      [] [] ⟨"unknown", 1, "", [], [], [], false, false⟩ defaultOptions).1
    ⟨⟨"unknown", 1, "", [], [], [], false, false⟩, List.mem_singleton.mpr rfl,
      by decide⟩,
   (render_unsupported_tag [headingRaw 1 "X"] [] []
      ⟨"unknown", 1, "", [], [], [], false, false⟩ defaultOptions).2.2
    (by
      intro b' hb'
      rw [List.mem_singleton.mp hb']
      decide)
    "unknown"⟩

/-- Claim C7: render is fail-fast and all-or-nothing — any invalid block
makes the whole render an error (no partial Document exists, the result
being an `Except`), the error is the one detected at the first offending
block, and a transport call surfaces the channel's failure verbatim with
exactly one send attempt (never silently retried). -/
theorem render_fail_fast (blocks pre post : List RawBlock) (b : RawBlock)
    (opts : RenderOptions) (e : RenderError) (req : String)
    (channel : String → Except TransportFailure String) :
    ((∃ b' ∈ blocks, ∀ c, renderBlock b' ≠ Except.ok c) →
      ∃ e', render blocks opts = Except.error e')
    ∧ (blocks = pre ++ b :: post →
      (∀ p ∈ pre, ∃ c, renderBlock p = Except.ok c) →
      renderBlock b = Except.error e →
      render blocks opts = Except.error e)
    ∧ transportCall req channel = (channel req, 1) := by
  refine ⟨?_, ?_, rfl⟩
  · intro hbad
    obtain ⟨e', he'⟩ := renderBlocks_error_of_bad blocks hbad
    exact ⟨e', (render_error_iff blocks opts e').mpr he'⟩
  · intro hsplit hpre hb
    rw [render_error_iff, hsplit]
    exact renderBlocks_error_at pre b post e hpre hb

/-- Witness for C7: a heading at level 0 placed after a valid paragraph
aborts the whole render with InvalidHeadingLevel, and a timing-out channel
is surfaced after exactly one attempt. -/
theorem render_fail_fast_witness :
    render [paragraphRaw "ok" false false, headingRaw 0 "bad"]
      defaultOptions = Except.error (RenderError.invalidHeadingLevel 0)
    ∧ (∃ e', render [paragraphRaw "ok" false false, headingRaw 0 "bad"]
        defaultOptions = Except.error e')
    ∧ transportCall "req" (fun _ => Except.error TransportFailure.timeout) =
      (Except.error TransportFailure.timeout, 1) :=
  ⟨(render_fail_fast [paragraphRaw "ok" false false, headingRaw 0 "bad"]
      [paragraphRaw "ok" false false] [] (headingRaw 0 "bad") defaultOptions
      (RenderError.invalidHeadingLevel 0) "req"
      (fun _ => Except.error TransportFailure.timeout)).2.1
    rfl
    (by
      intro p hp
      rw [List.mem_singleton.mp hp]
      exact ⟨ContentBlock.paragraph "ok" false false, rfl⟩)
    rfl,
   (render_fail_fast [paragraphRaw "ok" false false, headingRaw 0 "bad"]
      [paragraphRaw "ok" false false] [] (headingRaw 0 "bad") defaultOptions
      (RenderError.invalidHeadingLevel 0) "req"
      (fun _ => Except.error TransportFailure.timeout)).1
    ⟨headingRaw 0 "bad", by decide, fun c hc => by
      simp [renderBlock, headingRaw] at hc⟩,
   (render_fail_fast [] [] [] breakRaw defaultOptions
      (RenderError.invalidHeadingLevel 0) "req"
      (fun _ => Except.error TransportFailure.timeout)).2.2⟩

/-- Claim C5: render is a pure transformation — run against an explicit
file-system state it leaves the state unchanged, its result is independent
of the state, and the only file write of the render-then-save pipeline is
the external serializer's single write of the rendered Document. -/
theorem render_pure (blocks : List RawBlock) (opts : RenderOptions)
    (path : String) (w w' : World) :
    (renderSt blocks opts w).2 = w
    ∧ (renderSt blocks opts w).1 = (renderSt blocks opts w').1
    ∧ (∀ d, (renderSt blocks opts w).1 = Except.ok d →
      renderAndSave blocks opts path w =
        (Except.ok (), w ++ [(path, serializeDoc d)]))
    ∧ (∀ e, (renderSt blocks opts w).1 = Except.error e →
      renderAndSave blocks opts path w = (Except.error e, w)) := by
  refine ⟨rfl, rfl, ?_, ?_⟩
  · intro d hd
    simp only [renderSt] at hd
    simp [renderAndSave, renderSt, saveDoc, hd]
  · intro e he
    simp only [renderSt] at he
    simp [renderAndSave, renderSt, he]

/-- Witness for C5: rendering one heading against the empty world writes
exactly one file, through the serializer. -/
theorem render_pure_witness :
    renderAndSave [headingRaw 1 "X"] defaultOptions "out.docx" [] =
      (Except.ok (),
        [("out.docx",
          serializeDoc ⟨"", "Calibri", "A4", [ContentBlock.heading 1 "X"]⟩)]) :=
  (render_pure [headingRaw 1 "X"] defaultOptions "out.docx" [] []).2.2.1
    ⟨"", "Calibri", "A4", [ContentBlock.heading 1 "X"]⟩ rfl

theorem maxLenLoop_eq_max (cs : List String) :
    ∀ acc, maxLenLoop cs acc = max acc ((cs.map String.length).foldr max 0) := by
  induction cs with
  | nil =>
    intro acc
    simp [maxLenLoop, max_eq_left (Nat.zero_le acc)]
  | cons c cs ih =>
    intro acc
    have hstep : (if acc < c.length then c.length else acc) = max acc c.length := by
      rcases lt_or_ge acc c.length with hlt | hge
      · rw [if_pos hlt, max_eq_right hlt.le]
      · rw [if_neg (not_lt.mpr hge), max_eq_left hge]
    rw [maxLenLoop, hstep, ih]
    simp [max_assoc]

/-- Claim C8: in `create_products.py`, every column width assigned to the
worksheet is at most 50, and for every column the width set equals
min(longest cell text length + 2, 50). -/
theorem product_column_widths (col : List String) (h : col ∈ productColumns) :
    adjustedWidth col ≤ 50 ∧
    adjustedWidth col = min ((col.map String.length).foldr max 0 + 2) 50 := by
  constructor
  · exact min_le_right _ _
  · unfold adjustedWidth
    rw [maxLenLoop_eq_max col 0]
    simp

/-- Witness for C8 at the first worksheet column
(`Product`, `iPhone`, `MacBook`, `iPad`). -/
theorem product_column_widths_witness :
    adjustedWidth ["Product", "iPhone", "MacBook", "iPad"] ≤ 50 ∧
    adjustedWidth ["Product", "iPhone", "MacBook", "iPad"] =
      min ((["Product", "iPhone", "MacBook", "iPad"].map String.length).foldr
        max 0 + 2) 50 :=
  product_column_widths ["Product", "iPhone", "MacBook", "iPad"] (by decide)

/-- Claim C9: in `create_product_excel.py`, the alternating-row fill is
applied to a data cell iff its worksheet row number is even; data starts
at row 2, so the first data row and every second data row after it are
filled, and odd-numbered rows are left unfilled. -/
theorem alt_fill_even_rows (i r : Nat) :
    (altFillApplied r = true ↔ r % 2 = 0)
    ∧ (i < excelDataRows.length →
      (altFillApplied (dataRowNum i) = true ↔ i % 2 = 0))
    ∧ altFillApplied (dataRowNum 0) = true
    ∧ altFillApplied (dataRowNum (i + 2)) = altFillApplied (dataRowNum i)
    ∧ (r % 2 = 1 → altFillApplied r = false) := by
  refine ⟨?_, fun _ => ?_, rfl, ?_, ?_⟩
  · simp [altFillApplied]
  · simp [altFillApplied, dataRowNum, Nat.add_mod]
  · simp [altFillApplied, dataRowNum, Nat.add_mod]
  · intro hr
    simp [altFillApplied, Nat.add_mod, hr]

/-- Witness for C9 at the first data row (worksheet row 2, filled) and at
worksheet row 3 (odd, unfilled). -/
theorem alt_fill_even_rows_witness :
    (altFillApplied 2 = true ↔ 2 % 2 = 0)
    ∧ (altFillApplied (dataRowNum 0) = true ↔ 0 % 2 = 0)
    ∧ altFillApplied (dataRowNum 0) = true
    ∧ altFillApplied 3 = false :=
  ⟨(alt_fill_even_rows 0 2).1,
   (alt_fill_even_rows 0 3).2.1 (by decide),
   (alt_fill_even_rows 0 3).2.2.1,
   (alt_fill_even_rows 0 3).2.2.2.2 (by decide)⟩

/-- Claim C10: the JSON-RPC client of `create_presentation.py` emits its
messages in the fixed order initialize (id 0), notifications/initialized,
tools/call (id 1); after each request — and only there, so never after the
notification — it reads exactly one line before proceeding; and each
message goes out as a single JSON object (no embedded newline) terminated
by a newline. -/
theorem client_message_order :
    clientTrace =
      [ClientEvent.writeLine (MsgKind.request 0 "initialize"),
       ClientEvent.readLine,
       ClientEvent.writeLine (MsgKind.notification "notifications/initialized"),
       ClientEvent.writeLine (MsgKind.request 1 "tools/call"),
       ClientEvent.readLine]
    ∧ readDiscipline clientTrace = true
    ∧ (wireLine (MsgKind.request 0 "initialize")).data.getLast? = some '\n'
    ∧ (wireLine (MsgKind.notification "notifications/initialized")).data.getLast?
        = some '\n'
    ∧ (wireLine (MsgKind.request 1 "tools/call")).data.getLast? = some '\n'
    ∧ '\n' ∉ (encodeMsg (MsgKind.request 0 "initialize")).data
    ∧ '\n' ∉ (encodeMsg (MsgKind.notification "notifications/initialized")).data
    ∧ '\n' ∉ (encodeMsg (MsgKind.request 1 "tools/call")).data := by
  refine ⟨rfl, rfl, by decide, by decide, by decide, ?_, ?_, ?_⟩
  · decide
  · decide
  · decide
